import Mathlib

/-!
Verification development for the wa360 WhatsApp integration (Django app).

Shallow embedding of the parts of `src/wa360` that the stated properties talk
about: phone normalization (`utils.py`), the key-sealing saves and the AI
status mapping (`models.py`), the classifier fallback
(`conversation_evaluation.py`), the webhook ingress (`views.py`), the
evaluator and dispatcher tasks (`tasks.py`), and the admin send actions
(`admin.py`).  Python strings become `String`, database rows become
structures, database timestamps become `Nat`, and every external call (the
LLM, the WhatsApp HTTP API, Fernet crypto) is a parameter of the function
that makes it; a raised Python exception is `PyResult.exn`.
-/

namespace WA360

/-- Result of running a piece of Python that may raise: either a value or an
exception carrying its message. -/
inductive PyResult (α : Type) where
  | ok (val : α)
  | exn (msg : String)
  deriving Repr, DecidableEq

/-! ## utils.py — phone canonicalization -/

/-- The character class kept by `re.sub(r"[^\d+]", "", msisdn)` in
`normalize_msisdn` (utils.py line 11): digits and `+`. -/
def keepDigitPlus (c : Char) : Bool := c.isDigit || c == '+'

/-- `digits.startswith("+")` on the character list of the string. -/
def startsWithPlus : List Char → Bool
  | [] => false
  | c :: _ => c == '+'

/-- `digits.lstrip("+")`: drop the leading run of `+` characters. -/
def lstripPlus (l : List Char) : List Char := l.dropWhile (fun c => c == '+')

/-- utils.py lines 9–14 (`normalize_msisdn`):
```
digits = re.sub(r"[^\d+]", "", msisdn or "")
if digits and not digits.startswith("+"):
    digits = "+" + digits.lstrip("+")
return digits
```
`\d` is modelled as ASCII digits, which is what provider MSISDNs contain. -/
def normalize_msisdn (msisdn : String) : String :=
  let digits := msisdn.data.filter keepDigitPlus
  if !digits.isEmpty && !startsWithPlus digits then
    String.mk ('+' :: lstripPlus digits)
  else
    String.mk digits

/-- utils.py lines 16–18 (`digits_only`): `re.sub(r"\D", "", msisdn or "")`. -/
def digits_only (msisdn : String) : String :=
  String.mk (msisdn.data.filter Char.isDigit)

/-! ## conversation_evaluation.py — classifier output and fallback -/

/-- `ConversationStatus` enum (conversation_evaluation.py lines 14–18). -/
inductive ConversationStatus where
  | CONTINUE
  | SCHEDULE_LATER
  | CLOSE
  deriving Repr, DecidableEq

/-- `ConversationEvaluation` pydantic model (conversation_evaluation.py lines
21–42).  `confidence` is a real in `[0,1]`, modelled as `ℚ`. -/
structure ConversationEvaluation where
  status : ConversationStatus
  confidence : ℚ
  reasoning : String
  client_sentiment : String
  engagement_level : String
  suggested_timing : Option String := none
  deriving Repr, DecidableEq

/-- The safe default built in the `except` branch of
`ConversationEvaluator.evaluate_conversation` (conversation_evaluation.py
lines 84–90), with `e` the exception text. -/
def safe_default_evaluation (e : String) : ConversationEvaluation :=
  { status := .CONTINUE
    confidence := 1/2
    reasoning := "Evaluation failed: " ++ e ++ ". Defaulting to continue."
    client_sentiment := "unknown"
    engagement_level := "unknown"
    suggested_timing := none }

/-- `ConversationEvaluator.evaluate_conversation` (conversation_evaluation.py
lines 62–90).  The `agent.run_sync` call — the model call plus pydantic's
structural validation of its output — is the `run_sync` argument: `.ok` is a
validated `ConversationEvaluation`, `.exn` is any failure (HTTP error or
malformed/unvalidatable output).  The function itself is total: it never
re-raises. -/
def evaluate_conversation (run_sync : PyResult ConversationEvaluation) :
    ConversationEvaluation :=
  match run_sync with
  | .ok result => result
  | .exn e => safe_default_evaluation e

/-! ## models.py — rows and persistence behaviour -/

/-- The fields of `WaIntegration` (models.py lines 72–98) that the stated
properties depend on; ORM bookkeeping fields are omitted. -/
structure WaIntegrationRec where
  raw_api_key : String
  api_key_encrypted : String
  tester_msisdn : String
  deriving Repr, DecidableEq

/-- `WaIntegration.save` (models.py lines 100–121): when `raw_api_key` is
truthy (non-empty) it is encrypted into `api_key_encrypted` and cleared, then
the row is persisted.  `enc` is crypto.py's Fernet encryption. -/
def WaIntegrationRec.save (enc : String → String) (i : WaIntegrationRec) :
    WaIntegrationRec :=
  if i.raw_api_key ≠ "" then
    { i with api_key_encrypted := enc i.raw_api_key, raw_api_key := "" }
  else
    i

/-- The fields of `LLMConfiguration` (models.py lines 276–300) the stated
properties depend on. -/
structure LLMConfigurationRec where
  raw_api_key : String
  api_key_encrypted : String
  model : String
  temperature : ℚ
  max_tokens : Nat
  deriving Repr, DecidableEq

/-- `LLMConfiguration.save` (models.py lines 302–307): same sealing rule as
`WaIntegration.save`. -/
def LLMConfigurationRec.save (enc : String → String) (c : LLMConfigurationRec) :
    LLMConfigurationRec :=
  if c.raw_api_key ≠ "" then
    { c with api_key_encrypted := enc c.raw_api_key, raw_api_key := "" }
  else
    c

/-- `LLMConfiguration.get_api_key` (models.py lines 309–316): decrypt when a
ciphertext is stored, `none` when the column is empty or decryption raises.
`decFn` models crypto.py's `dec` with its failure folded to `none`. -/
def LLMConfigurationRec.get_api_key (decFn : String → Option String)
    (c : LLMConfigurationRec) : Option String :=
  if c.api_key_encrypted ≠ "" then decFn c.api_key_encrypted else none

/-- The status filter list `['open', 'continue', 'schedule_later',
'evaluating']` used identically by views.py (webhook and send views),
tasks.py (evaluator queryset and dispatcher queryset) and by
`WaConversation.is_open` (models.py line 247). -/
def active_statuses : List String :=
  ["open", "continue", "schedule_later", "evaluating"]

/-- `WaConversation.is_open` (models.py lines 244–247). -/
def conv_is_open (status : String) : Bool := active_statuses.contains status

/-- The fields of `WaConversation` (models.py lines 213–229) the stated
properties depend on; timestamps are model time (`Nat`). -/
structure WaConversationRec where
  id : Nat
  wa_id : String
  status : String
  started_by : String
  started_at : Nat
  last_msg_at : Nat
  deriving Repr, DecidableEq

/-- The `status_mapping` dict of `WaConversation.update_ai_status`
(models.py lines 259–263). -/
def status_mapping : List (ConversationStatus × String) :=
  [(.CONTINUE, "continue"), (.SCHEDULE_LATER, "schedule_later"),
   (.CLOSE, "closed")]

/-- `status_mapping.get(ai_status, 'open')` followed by the status write in
`WaConversation.update_ai_status` (models.py lines 256–274): the new status
value written to the conversation. -/
def update_ai_status_new_status (ai_status : ConversationStatus) : String :=
  (status_mapping.lookup ai_status).getD "open"

/-- The fields of `WaMessage` (models.py lines 353–370) the stated properties
depend on.  `msg_id` is the provider message id. -/
structure WaMessageRec where
  direction : String
  wa_id : String
  msg_id : String
  msg_type : String
  text : String
  deriving Repr, DecidableEq

/-! ## views.py — webhook ingress -/

/-- A JSON value, as parsed from the webhook body. -/
inductive JValue where
  | str (s : String)
  | num (n : Nat)
  | arr (elems : List JValue)
  | obj (fields : List (String × JValue))
  | null
  deriving Repr

/-- Python `d.get(key, default)`: `none` models the `AttributeError` raised
when the receiver is not a dict (caught by the view's outer handler). -/
def pyDictGet (v : JValue) (k : String) (dflt : JValue) : Option JValue :=
  match v with
  | .obj fields => some ((fields.lookup k).getD dflt)
  | _ => none

/-- Python `x[0]`: `none` models the `IndexError`/`TypeError` raised on an
empty list or a non-list (caught by the view's outer handler). -/
def pyIndex0 : JValue → Option JValue
  | .arr (x :: _) => some x
  | _ => none

/-- views.py lines 117–120 (`webhook_360dialog`):
```
entry = body.get("entry", [{}])[0]
changes = entry.get("changes", [{}])[0]
value = changes.get("value", {})
messages = value.get("messages", [])
```
`none` models an exception reaching the outer `except`, which returns 200 and
processes nothing. -/
def extract_webhook_messages (body : JValue) : Option JValue := do
  let entries ← pyDictGet body "entry" (.arr [.obj []])
  let entry ← pyIndex0 entries
  let changesList ← pyDictGet entry "changes" (.arr [.obj []])
  let changes ← pyIndex0 changesList
  let value ← pyDictGet changes "value" (.obj [])
  pyDictGet value "messages" (.arr [])

/-- The list of message elements the webhook handler actually iterates over
(views.py lines 122–128): empty when extraction found nothing, raised, or
produced a non-list. -/
def webhook_messages_processed (body : JValue) : List JValue :=
  match extract_webhook_messages body with
  | some (.arr msgs) => msgs
  | _ => []

/-- The stored rows for one integration: its conversations and messages. -/
structure InboundStore where
  conversations : List WaConversationRec
  messages : List WaMessageRec
  deriving Repr, DecidableEq

/-- `order_by('-last_msg_at').first()`: the element with the greatest
`last_msg_at` (leftmost among ties, modelling the database's row choice). -/
def pick_latest_by_last_msg_at : List WaConversationRec → Option WaConversationRec
  | [] => none
  | c :: cs =>
    match pick_latest_by_last_msg_at cs with
    | none => some c
    | some d => if d.last_msg_at > c.last_msg_at then some d else some c

/-- views.py lines 195–197: the existing-conversation query of the webhook —
filter by contact and the active statuses, newest `last_msg_at` first. -/
def webhook_find_conversation (convs : List WaConversationRec)
    (from_phone : String) : Option WaConversationRec :=
  pick_latest_by_last_msg_at
    (convs.filter (fun c => c.wa_id == from_phone && conv_is_open c.status))

/-- views.py lines 193–228 (`webhook_360dialog`, per message, after the phone
is normalized and the integration matched): find or create the conversation,
unconditionally `WaMessage.objects.create(...)` the inbound row, then set the
conversation's `last_msg_at` to now.  `fresh_id` is the primary key the
database would assign to a newly created conversation. -/
def webhook_deliver (store : InboundStore)
    (from_phone msg_id msg_type text : String) (fresh_id now : Nat) :
    InboundStore :=
  let newMsg : WaMessageRec :=
    { direction := "in", wa_id := from_phone, msg_id := msg_id,
      msg_type := msg_type, text := text }
  match webhook_find_conversation store.conversations from_phone with
  | some conv =>
      { conversations := store.conversations.map
          (fun c => if c.id == conv.id then { c with last_msg_at := now } else c)
        messages := store.messages ++ [newMsg] }
  | none =>
      { conversations := store.conversations ++
          [{ id := fresh_id, wa_id := from_phone, status := "open",
             started_by := "contact", started_at := now, last_msg_at := now }]
        messages := store.messages ++ [newMsg] }

/-- Number of stored message rows carrying a given provider message id. -/
def count_msg_id (msgs : List WaMessageRec) (mid : String) : Nat :=
  (msgs.filter (fun m => m.msg_id == mid)).length

/-! ## tasks.py — evaluator task, per conversation -/

/-- The data determining what `evaluate_conversation_statuses` (tasks.py
lines 72–225) does to one conversation: its current status, its message
count, whether a `ConversationSummary` row existed and its snapshot count,
and the results of the two external calls made for it.  `chat_summary` is the
combined `OpenAIManager.from_llm_config` + `chat_completion` summary call
(lines 129–135); `classify_run` is the evaluator's `agent.run_sync`. -/
structure EvalConvInput where
  status : String
  msgCount : Nat
  summaryExists : Bool
  summaryMsgCount : Nat
  chat_summary : PyResult String
  classify_run : PyResult ConversationEvaluation

/-- Effect of one pass of the evaluator task on one conversation: the final
status together with the list of status values written during the pass.  The
guard is the task's queryset filter (tasks.py lines 43–46); the skip rules
are lines 77–97; an exception from the summary call is caught by the
per-conversation `except` (lines 223–225) and writes nothing; otherwise the
one and only status write is `update_ai_status` (lines 157–161). -/
def evaluate_one (input : EvalConvInput) : String × List String :=
  if !(active_statuses.contains input.status) then
    (input.status, [])
  else
    let created := !input.summaryExists
    let snapshot := if created then 0 else input.summaryMsgCount
    if !created && input.msgCount == snapshot then
      (input.status, [])
    else
      let new_msg_count := input.msgCount - snapshot
      if new_msg_count == 0 then
        (input.status, [])
      else
        match input.chat_summary with
        | .exn _ => (input.status, [])
        | .ok _ =>
          let evaluation := evaluate_conversation input.classify_run
          let new_status := update_ai_status_new_status evaluation.status
          (new_status, [new_status])

/-! ## tasks.py — dispatcher task, per integration -/

/-- `order_by('-started_at').first()`: the element with the greatest
`started_at` (leftmost among ties, modelling the database's row choice). -/
def pick_latest_by_started_at : List WaConversationRec → Option WaConversationRec
  | [] => none
  | c :: cs =>
    match pick_latest_by_started_at cs with
    | none => some c
    | some d => if d.started_at > c.started_at then some d else some c

/-- tasks.py lines 277–280 (`send_periodic_messages`): the conversation the
dispatcher targets for an integration — newest `started_at` among those whose
status is in `active_statuses`. -/
def latest_periodic_conversation (convs : List WaConversationRec) :
    Option WaConversationRec :=
  pick_latest_by_started_at
    (convs.filter (fun c => active_statuses.contains c.status))

/-- Outcome of the dispatcher's per-integration loop body. -/
inductive PeriodicOutcome where
  | no_llm_config
  | no_conversation
  | skip_engaged (convId : Nat)
  | skip_closed (convId : Nat)
  | errored (msg : String)
  | sent (m : WaMessageRec)
  deriving Repr, DecidableEq

/-- tasks.py line 302 calls `llm_config.get_system_prompt("")`.  models.py
defines `get_system_prompt` only on `WaIntegration` (lines 156–211);
`LLMConfiguration` (lines 276–316) defines only `save`, `get_api_key` and
`__str__`.  Python attribute lookup on the `LLMConfiguration` instance
therefore raises `AttributeError`; the `.ok` branch carrying a prompt
function is unreachable for this receiver. -/
def llm_config_get_system_prompt_attr (_cfg : LLMConfigurationRec) :
    PyResult (String → String) :=
  .exn "AttributeError: LLMConfiguration object has no attribute get_system_prompt"

/-- utils.py lines 105–123 (`get_outreach_message_prompt`).  Only the
identity of this string matters to the stated properties; the guideline text
is abridged here. -/
def get_outreach_message_prompt : String :=
  "Generate a brief, friendly message to reach out to the client about scheduling a meeting or project update."

/-- tasks.py lines 267–334 (`send_periodic_messages`, body of the
per-integration loop).  External calls are parameters: `decFn` is crypto
decryption, `chat_completion` the OpenAI call (system prompt, user message),
`send_text_sandbox` the WhatsApp send (key, to, text).
`integration_api_key` is `integration.get_api_key()`.  Any exception in the
body lands in the per-integration `except` (lines 331–334), which counts an
error and sends nothing. -/
def send_periodic_one (decFn : String → Option String)
    (chat_completion : String → String → PyResult String)
    (send_text_sandbox : Option String → String → String → PyResult String)
    (integration_api_key : Option String)
    (llm_config : Option LLMConfigurationRec)
    (convs : List WaConversationRec) (now : Nat) : PeriodicOutcome :=
  match llm_config with
  | none => .no_llm_config
  | some cfg =>
    match latest_periodic_conversation convs with
    | none => .no_conversation
    | some conv =>
      if conv.status == "continue" then .skip_engaged conv.id
      else if conv.status == "closed" then .skip_closed conv.id
      else
        -- `OpenAIManager.from_llm_config` (utils.py lines 64–76) raises when
        -- `llm_config.get_api_key()` yields nothing
        match cfg.get_api_key decFn with
        | none => .errored "No valid API key found in LLM configuration"
        | some _openai_key =>
          match llm_config_get_system_prompt_attr cfg with
          | .exn e => .errored e
          | .ok get_system_prompt =>
            match chat_completion (get_system_prompt "") get_outreach_message_prompt with
            | .exn e => .errored e
            | .ok ai_message =>
              match send_text_sandbox integration_api_key conv.wa_id ai_message with
              | .exn e => .errored e
              | .ok _resp =>
                .sent { direction := "out", wa_id := conv.wa_id,
                        msg_id := "periodic_" ++ toString now,
                        msg_type := "text", text := ai_message }

/-! ## admin.py — operator send actions, status effect -/

/-- admin.py lines 575–630 (`WaConversationAdmin.send_text`), effect on the
selected conversation's status: after a successful send and message store,
`if not conv.is_open: conv.status = 'open'` (lines 619–622).  `api_key_ok`
is whether `_get_api_key` succeeded; `send_result` is `send_text_sandbox`.
Any exception is caught per conversation and leaves the status alone. -/
def admin_send_text_status (tester_msisdn conv_wa_id : String)
    (api_key_ok : Bool) (send_result : PyResult String) (status : String) :
    String :=
  if !api_key_ok then status
  else
    let to_phone := normalize_msisdn (if conv_wa_id ≠ "" then conv_wa_id else tester_msisdn)
    if to_phone == "" then status
    else
      match send_result with
      | .exn _ => status
      | .ok _ => if conv_is_open status then status else "open"

/-- admin.py lines 501–566 (`WaConversationAdmin.start_with_template`),
effect on the selected conversation's status: same reopen rule as
`send_text` (lines 555–558), behind the sandbox preflight guard comparing
`digits_only` of the tester and destination numbers (lines 522–531). -/
def admin_start_with_template_status (tester_msisdn conv_wa_id : String)
    (api_key_ok : Bool) (send_result : PyResult String) (status : String) :
    String :=
  if !api_key_ok then status
  else
    let to_phone := normalize_msisdn (if conv_wa_id ≠ "" then conv_wa_id else tester_msisdn)
    if to_phone == "" then status
    else if digits_only tester_msisdn ≠ digits_only to_phone then status
    else
      match send_result with
      | .exn _ => status
      | .ok _ => if conv_is_open status then status else "open"

/-! ## Concrete instances used by witnesses and counterexamples -/

/-- A validated classifier output, for exercising the success path of
`evaluate_conversation`. -/
def c7_eval_ok : ConversationEvaluation :=
  { status := .SCHEDULE_LATER, confidence := 9/10,
    reasoning := "client postponed to next week",
    client_sentiment := "neutral", engagement_level := "medium",
    suggested_timing := some "next week" }

/-- An integration row holding a plaintext key, for the save property. -/
def c8_integration : WaIntegrationRec :=
  { raw_api_key := "wa-secret-key", api_key_encrypted := "",
    tester_msisdn := "+923001234567" }

/-- An LLM configuration row holding a plaintext key, for the save property. -/
def c8_llm_config : LLMConfigurationRec :=
  { raw_api_key := "sk-secret-key", api_key_encrypted := "",
    model := "gpt-4o-mini", temperature := 7/10, max_tokens := 1000 }

/-- A concrete stand-in for Fernet encryption. -/
def c8_enc (s : String) : String := "gAAAA" ++ s

/-- An LLM configuration with a sealed key, for the dispatcher runs. -/
def c3_cfg : LLMConfigurationRec :=
  { raw_api_key := "", api_key_encrypted := "gAAAAsealed",
    model := "gpt-4o-mini", temperature := 7/10, max_tokens := 1000 }

/-- An eligible (OPEN) conversation for the dispatcher. -/
def c3_conv : WaConversationRec :=
  { id := 11, wa_id := "+923001234567", status := "open",
    started_by := "admin", started_at := 1, last_msg_at := 2 }

/-- An older OPEN conversation (dispatcher selection scenario). -/
def c6_open_conv : WaConversationRec :=
  { id := 1, wa_id := "+100", status := "open", started_by := "admin",
    started_at := 10, last_msg_at := 50 }

/-- A newer CONTINUE conversation (dispatcher selection scenario). -/
def c6_cont_conv : WaConversationRec :=
  { id := 2, wa_id := "+200", status := "continue", started_by := "contact",
    started_at := 20, last_msg_at := 40 }

/-- Both conversations of one integration. -/
def c6_convs : List WaConversationRec := [c6_open_conv, c6_cont_conv]

/-- An LLM configuration for the dispatcher selection scenario. -/
def c6_cfg : LLMConfigurationRec :=
  { raw_api_key := "", api_key_encrypted := "gAAAAsealed",
    model := "gpt-4o", temperature := 1/2, max_tokens := 500 }

/-- A conversation the evaluator classifies as CLOSE: new messages exist and
both external calls succeed. -/
def c5_input : EvalConvInput :=
  { status := "open", msgCount := 3, summaryExists := false,
    summaryMsgCount := 0, chat_summary := .ok "summary text",
    classify_run := .ok
      { status := .CLOSE, confidence := 92/100,
        reasoning := "client said stop", client_sentiment := "negative",
        engagement_level := "low", suggested_timing := none } }

/-- A conversation whose classifier call fails, so the safe default
(CONTINUE) is written. -/
def c5w_input : EvalConvInput :=
  { status := "open", msgCount := 2, summaryExists := true,
    summaryMsgCount := 0, chat_summary := .ok "summary text",
    classify_run := .exn "model timeout" }

/-- A webhook message element delivered at the top level of the body (flat
shape). -/
def c4_flat_message : JValue :=
  .obj [("id", .str "wamid.FLAT1"), ("from", .str "923001234567"),
        ("type", .str "text"), ("text", .obj [("body", .str "Hi")])]

/-- A webhook body with a flat top-level `messages` array. -/
def c4_flat_body : JValue := .obj [("messages", .arr [c4_flat_message])]

/-- The contact's phone for the duplicate-delivery scenario. -/
def c1_phone : String := "+923001234567"

/-- Empty store before any delivery. -/
def c1_store0 : InboundStore := { conversations := [], messages := [] }

/-- Store after the first delivery of provider message `wamid.X`. -/
def c1_store1 : InboundStore :=
  webhook_deliver c1_store0 c1_phone "wamid.X" "text" "Hi" 1 1

/-- Store after the identical second delivery of `wamid.X`. -/
def c1_store2 : InboundStore :=
  webhook_deliver c1_store1 c1_phone "wamid.X" "text" "Hi" 2 2

/-- An open conversation row for the ingress monotonicity witness. -/
def c1w_conv : WaConversationRec :=
  { id := 7, wa_id := "+92300", status := "open", started_by := "admin",
    started_at := 0, last_msg_at := 3 }

/-- A store holding just that conversation. -/
def c1w_store : InboundStore := { conversations := [c1w_conv], messages := [] }

/-- A closed conversation row, for the terminal-status scenarios. -/
def c2w_conv : WaConversationRec :=
  { id := 3, wa_id := "+555", status := "closed", started_by := "admin",
    started_at := 1, last_msg_at := 2 }

/-- A store holding just the closed conversation. -/
def c2w_store : InboundStore := { conversations := [c2w_conv], messages := [] }

/-- A closed conversation as seen by the evaluator task. -/
def c2w_eval_input : EvalConvInput :=
  { status := "closed", msgCount := 5, summaryExists := true,
    summaryMsgCount := 1, chat_summary := .ok "summary",
    classify_run := .exn "unused" }

/-! ## Helper lemmas -/

/-- A string built from a character list is empty iff the list is. -/
theorem mk_eq_empty_iff (l : List Char) : String.mk l = "" ↔ l = [] := by
  constructor
  · intro h
    have := congrArg String.data h
    simpa using this
  · rintro rfl
    rfl

/-- Keeping digits-and-plus first and then keeping digits is the same as
keeping digits directly. -/
theorem filter_isDigit_keep (l : List Char) :
    (l.filter keepDigitPlus).filter Char.isDigit = l.filter Char.isDigit := by
  rw [List.filter_filter]
  refine List.filter_congr ?_
  intro a _
  cases h : a.isDigit <;> simp [keepDigitPlus, h]

/-- Stripping leading `+` characters does not change the digits of a list. -/
theorem filter_isDigit_lstripPlus (l : List Char) :
    (lstripPlus l).filter Char.isDigit = l.filter Char.isDigit := by
  induction l with
  | nil => rfl
  | cons c cs ih =>
    by_cases h : c == '+'
    · have hc : c = '+' := by simpa using h
      subst hc
      simpa [lstripPlus, List.dropWhile] using ih
    · simp [lstripPlus, List.dropWhile, h]

/-! ## C10 — `digits_only ∘ normalize_msisdn = digits_only` -/

/-- A list has a member satisfying `p` iff filtering by `p` is non-empty. -/
theorem any_iff_filter_ne_nil (p : Char → Bool) (l : List Char) :
    l.any p = true ↔ l.filter p ≠ [] := by
  induction l with
  | nil => simp
  | cons a l ih =>
    cases h : p a <;> simp [List.filter_cons, h, ih]

/-- C10: for every input string, normalizing to the `+`-prefixed form and
then stripping to digits agrees with stripping the raw input to digits —
`toDigits(toE164(x)) = toDigits(x)`, with no definedness caveat needed. -/
theorem C10_digits_of_normalize (s : String) :
    digits_only (normalize_msisdn s) = digits_only s := by
  unfold normalize_msisdn digits_only
  by_cases h : (!(s.data.filter keepDigitPlus).isEmpty
      && !startsWithPlus (s.data.filter keepDigitPlus)) = true
  · simp only [h, if_true]
    show String.mk (('+' :: lstripPlus (s.data.filter keepDigitPlus)).filter Char.isDigit)
        = String.mk (s.data.filter Char.isDigit)
    rw [List.filter_cons_of_neg (by decide), filter_isDigit_lstripPlus,
      filter_isDigit_keep]
  · simp only [h, if_false]
    show String.mk ((s.data.filter keepDigitPlus).filter Char.isDigit)
        = String.mk (s.data.filter Char.isDigit)
    rw [filter_isDigit_keep]

/-! ## C9 — definedness domain of the two canonicalizers -/

/-- C9 counterexample: on input `"+"`, which contains no digit, the claim
says both functions return absent (the empty string); `normalize_msisdn`
returns `"+"`. -/
theorem C9_counterexample :
    normalize_msisdn "+" = "+" ∧ ("+" : String).data.all (fun c => !c.isDigit) = true := by
  decide

/-- C9 amended: `digits_only` returns a non-empty result exactly on inputs
containing at least one digit, but `normalize_msisdn` returns a non-empty
result exactly on inputs containing at least one digit **or `+`** (so on
digit-free inputs such as `"+"` it is non-absent, contrary to the claim). -/
theorem C9_amended (s : String) :
    (digits_only s ≠ "" ↔ s.data.any Char.isDigit = true) ∧
    (normalize_msisdn s ≠ "" ↔ s.data.any keepDigitPlus = true) := by
  constructor
  · rw [digits_only, ne_eq, mk_eq_empty_iff, List.filter_eq_nil_iff, List.any_eq_true]
    push_neg
    simp
  · rw [any_iff_filter_ne_nil]
    unfold normalize_msisdn
    by_cases hsw : (!(s.data.filter keepDigitPlus).isEmpty
        && !startsWithPlus (s.data.filter keepDigitPlus)) = true
    · simp only [hsw, if_true]
      have hne : s.data.filter keepDigitPlus ≠ [] := by
        intro hnil
        rw [hnil] at hsw
        simp at hsw
      constructor
      · intro _
        exact hne
      · intro _
        rw [ne_eq, mk_eq_empty_iff]
        simp
    · simp only [hsw, if_false]
      simp [mk_eq_empty_iff]

/-! ## C7 — classifier fallback -/

/-- C7: `evaluate_conversation` is total over the model-call result and
raises nothing: a validated success is returned as-is, and any failing or
malformed model call yields the safe default — status `CONTINUE`, confidence
`0.5`, a reasoning string naming the failure, and `unknown`
sentiment/engagement. -/
theorem C7_classify_fallback (r : PyResult ConversationEvaluation) :
    (∀ v, r = .ok v → evaluate_conversation r = v) ∧
    (∀ e, r = .exn e →
      (evaluate_conversation r).status = .CONTINUE ∧
      (evaluate_conversation r).confidence = 1/2 ∧
      (evaluate_conversation r).reasoning
        = "Evaluation failed: " ++ e ++ ". Defaulting to continue." ∧
      (evaluate_conversation r).client_sentiment = "unknown" ∧
      (evaluate_conversation r).engagement_level = "unknown") := by
  constructor
  · rintro v rfl
    rfl
  · rintro e rfl
    exact ⟨rfl, rfl, rfl, rfl, rfl⟩

/-- Witness for C7 at concrete inputs: a validated output is passed through,
and a failed call degrades to the default. -/
theorem C7_classify_fallback_witness :
    evaluate_conversation (.ok c7_eval_ok) = c7_eval_ok ∧
    (evaluate_conversation (.exn "model timeout")).status = .CONTINUE ∧
    (evaluate_conversation (.exn "model timeout")).reasoning
      = "Evaluation failed: model timeout. Defaulting to continue." :=
  ⟨(C7_classify_fallback (.ok c7_eval_ok)).1 c7_eval_ok rfl,
   ((C7_classify_fallback (.exn "model timeout")).2 "model timeout" rfl).1,
   ((C7_classify_fallback (.exn "model timeout")).2 "model timeout" rfl).2.2.1⟩

/-! ## C8 — plaintext keys never survive a save -/

/-- C8: saving a `WaIntegration` or an `LLMConfiguration` whose plaintext key
field is non-empty persists the ciphertext of that key in the sealed column
and clears the plaintext field to the empty string. -/
theorem C8_save_seals_key (enc : String → String) (i : WaIntegrationRec)
    (c : LLMConfigurationRec) (hi : i.raw_api_key ≠ "") (hc : c.raw_api_key ≠ "") :
    (i.save enc).api_key_encrypted = enc i.raw_api_key ∧
    (i.save enc).raw_api_key = "" ∧
    (c.save enc).api_key_encrypted = enc c.raw_api_key ∧
    (c.save enc).raw_api_key = "" := by
  unfold WaIntegrationRec.save LLMConfigurationRec.save
  rw [if_pos hi, if_pos hc]
  exact ⟨rfl, rfl, rfl, rfl⟩

/-- Witness for C8 at concrete rows and a concrete cipher. -/
theorem C8_save_seals_key_witness :
    (c8_integration.save c8_enc).api_key_encrypted
      = c8_enc c8_integration.raw_api_key ∧
    (c8_integration.save c8_enc).raw_api_key = "" ∧
    (c8_llm_config.save c8_enc).api_key_encrypted
      = c8_enc c8_llm_config.raw_api_key ∧
    (c8_llm_config.save c8_enc).raw_api_key = "" :=
  C8_save_seals_key c8_enc c8_integration c8_llm_config (by decide) (by decide)

/-! ## Dispatcher selection lemmas -/

/-- Selection over a non-empty list never comes back empty. -/
theorem pick_latest_by_started_at_cons_ne_none (a : WaConversationRec)
    (l : List WaConversationRec) :
    pick_latest_by_started_at (a :: l) ≠ none := by
  unfold pick_latest_by_started_at
  cases h : pick_latest_by_started_at l
  · simp
  · dsimp only
    split <;> simp

/-- A selected latest-started conversation is a member of the list and has
the greatest `started_at`. -/
theorem pick_latest_by_started_at_spec :
    ∀ (l : List WaConversationRec) (c : WaConversationRec),
      pick_latest_by_started_at l = some c →
      c ∈ l ∧ ∀ d ∈ l, d.started_at ≤ c.started_at := by
  intro l
  induction l with
  | nil =>
    intro c h
    cases h
  | cons a l ih =>
    intro c h
    unfold pick_latest_by_started_at at h
    cases hrec : pick_latest_by_started_at l with
    | none =>
      rw [hrec] at h
      injection h with h
      subst h
      refine ⟨List.mem_cons_self _ _, ?_⟩
      intro d hd
      rcases List.mem_cons.mp hd with rfl | hdl
      · exact le_refl _
      · cases l with
        | nil => cases hdl
        | cons b l => exact absurd hrec (pick_latest_by_started_at_cons_ne_none b l)
    | some b =>
      rw [hrec] at h
      dsimp only at h
      obtain ⟨hb_mem, hb_max⟩ := ih b hrec
      by_cases hgt : b.started_at > a.started_at
      · rw [if_pos hgt] at h
        injection h with h
        subst h
        refine ⟨List.mem_cons_of_mem _ hb_mem, ?_⟩
        intro d hd
        rcases List.mem_cons.mp hd with rfl | hdl
        · exact le_of_lt hgt
        · exact hb_max d hdl
      · rw [if_neg hgt] at h
        injection h with h
        subst h
        push_neg at hgt
        refine ⟨List.mem_cons_self _ _, ?_⟩
        intro d hd
        rcases List.mem_cons.mp hd with rfl | hdl
        · exact le_refl _
        · exact le_trans (hb_max d hdl) hgt

/-! ## C3 — dispatcher always errors at the system-prompt lookup -/

/-- C3: whenever the dispatcher has an LLM configuration and an eligible
(non-CONTINUE, non-CLOSED) latest conversation for an integration, its
per-integration body ends in the error branch — at the latest at the
`llm_config.get_system_prompt` attribute lookup, which `LLMConfiguration`
does not define — so it never reaches the send and never produces an
outbound message row, for every behaviour of the external calls. -/
theorem C3_dispatch_hits_missing_method
    (decFn : String → Option String)
    (chat : String → String → PyResult String)
    (send : Option String → String → String → PyResult String)
    (integKey : Option String) (cfg : LLMConfigurationRec)
    (convs : List WaConversationRec) (now : Nat) (conv : WaConversationRec)
    (hsel : latest_periodic_conversation convs = some conv)
    (hcont : conv.status ≠ "continue") (hclosed : conv.status ≠ "closed") :
    (∃ e, send_periodic_one decFn chat send integKey (some cfg) convs now
        = .errored e) ∧
    ∀ m, send_periodic_one decFn chat send integKey (some cfg) convs now
        ≠ .sent m := by
  have h1 : (conv.status == "continue") = false := by simpa using hcont
  have h2 : (conv.status == "closed") = false := by simpa using hclosed
  unfold send_periodic_one
  rw [hsel]
  simp only [h1, h2, Bool.false_eq_true, if_false]
  cases hk : cfg.get_api_key decFn with
  | none =>
    exact ⟨⟨_, rfl⟩, fun m h => PeriodicOutcome.noConfusion h⟩
  | some key =>
    exact ⟨⟨_, rfl⟩, fun m h => PeriodicOutcome.noConfusion h⟩

/-- Witness for C3: a concrete tenant state with a sealed LLM key, an OPEN
latest conversation, and external calls that would all succeed — the
dispatcher still errors and sends nothing. -/
theorem C3_dispatch_hits_missing_method_witness :
    (∃ e, send_periodic_one (fun _ => some "sk-plain") (fun _ _ => .ok "hello")
        (fun _ _ _ => .ok "provider-response") (some "wa-key") (some c3_cfg)
        [c3_conv] 5 = .errored e) ∧
    ∀ m, send_periodic_one (fun _ => some "sk-plain") (fun _ _ => .ok "hello")
        (fun _ _ _ => .ok "provider-response") (some "wa-key") (some c3_cfg)
        [c3_conv] 5 ≠ .sent m :=
  C3_dispatch_hits_missing_method (fun _ => some "sk-plain")
    (fun _ _ => .ok "hello") (fun _ _ _ => .ok "provider-response")
    (some "wa-key") c3_cfg [c3_conv] 5 c3_conv (by decide) (by decide) (by decide)

/-! ## C6 — dispatcher target selection -/

/-- C6 counterexample: with an older OPEN conversation and a newer CONTINUE
conversation, the dispatcher selects the CONTINUE one (its query filter
includes `continue`) and then skips the integration entirely — the older
OPEN conversation is not selected and nothing is sent, contrary to the
claim. -/
theorem C6_counterexample :
    latest_periodic_conversation c6_convs = some c6_cont_conv ∧
    c6_cont_conv.status = "continue" ∧
    c6_open_conv.status = "open" ∧
    c6_open_conv.started_at < c6_cont_conv.started_at ∧
    send_periodic_one (fun _ => some "sk-plain") (fun _ _ => .ok "hi")
      (fun _ _ _ => .ok "resp") (some "wa-key") (some c6_cfg) c6_convs 9
      = .skip_engaged 2 := by
  decide

/-- C6 amended: the dispatcher selects the conversation with the greatest
`started_at` among statuses {open, continue, schedule_later, evaluating}
(CONTINUE included, CLOSED excluded); when the selected conversation is in
CONTINUE the whole integration is skipped, so no older conversation is
contacted. -/
theorem C6_amended (convs : List WaConversationRec) (conv : WaConversationRec)
    (hsel : latest_periodic_conversation convs = some conv) :
    active_statuses.contains conv.status = true ∧
    (∀ d ∈ convs, active_statuses.contains d.status = true →
      d.started_at ≤ conv.started_at) ∧
    (∀ decFn chat send integKey cfg now, conv.status = "continue" →
      send_periodic_one decFn chat send integKey (some cfg) convs now
        = .skip_engaged conv.id) := by
  unfold latest_periodic_conversation at hsel
  obtain ⟨hmem, hmax⟩ := pick_latest_by_started_at_spec _ conv hsel
  have hpred := (List.mem_filter.mp hmem).2
  refine ⟨hpred, ?_, ?_⟩
  · intro d hd hdpred
    exact hmax d (List.mem_filter.mpr ⟨hd, hdpred⟩)
  · intro decFn chat send integKey cfg now hcont
    unfold send_periodic_one latest_periodic_conversation
    rw [hsel]
    have : (conv.status == "continue") = true := by simpa using hcont
    simp only [this, if_true]

/-- Witness for C6 amended at the concrete two-conversation state. -/
theorem C6_amended_witness :
    active_statuses.contains c6_cont_conv.status = true ∧
    c6_open_conv.started_at ≤ c6_cont_conv.started_at ∧
    send_periodic_one (fun _ => some "sk-plain") (fun _ _ => .ok "hi")
      (fun _ _ _ => .ok "resp") (some "wa-key") (some c6_cfg) c6_convs 9
      = .skip_engaged c6_cont_conv.id :=
  ⟨(C6_amended c6_convs c6_cont_conv (by decide)).1,
   (C6_amended c6_convs c6_cont_conv (by decide)).2.1 c6_open_conv
     (by decide) (by decide),
   (C6_amended c6_convs c6_cont_conv (by decide)).2.2 _ _ _ _ c6_cfg 9 rfl⟩

/-! ## C5 — the evaluator and the EVALUATING status -/

/-- The AI status mapping only produces the three mapped statuses. -/
theorem update_ai_status_cases (ai : ConversationStatus) :
    update_ai_status_new_status ai
      ∈ (["continue", "schedule_later", "closed"] : List String) := by
  cases ai <;> decide

/-- The AI status mapping never produces `evaluating`. -/
theorem update_ai_status_ne_evaluating (ai : ConversationStatus) :
    update_ai_status_new_status ai ≠ "evaluating" := by
  cases ai <;> decide

/-- C5 counterexample: a conversation the evaluator fully processes (new
messages, both external calls succeed, classified CLOSE).  The only status
write of the whole pass is `closed`; at no point is the status set to
`evaluating`, contrary to the claim that the job transitions conversations
to EVALUATING while it runs. -/
theorem C5_counterexample :
    evaluate_one c5_input = ("closed", ["closed"]) ∧
    "evaluating" ∉ (evaluate_one c5_input).2 := by
  decide

/-- C5 amended: the evaluator never writes EVALUATING at any point of a
pass; the second half of the claim does hold — a conversation the job
classifies (one with a status write) ends in one of
{continue, schedule_later, closed}, and a skipped conversation keeps its
prior status. -/
theorem C5_amended (input : EvalConvInput) :
    "evaluating" ∉ (evaluate_one input).2 ∧
    ((evaluate_one input).2 ≠ [] →
      (evaluate_one input).1
        ∈ (["continue", "schedule_later", "closed"] : List String)) ∧
    ((evaluate_one input).2 = [] → (evaluate_one input).1 = input.status) := by
  unfold evaluate_one
  dsimp only
  repeat' split
  all_goals
    first
      | exact ⟨List.not_mem_nil _, fun h => absurd rfl h, fun _ => rfl⟩
      | exact ⟨fun hmem =>
                 update_ai_status_ne_evaluating _ (List.mem_singleton.mp hmem).symm,
               fun _ => update_ai_status_cases _,
               fun h => absurd h (List.cons_ne_nil _ _)⟩

/-- Witness for C5 amended: on a conversation whose classifier call fails,
the pass writes the default-mapped `continue` — never `evaluating`. -/
theorem C5_amended_witness :
    "evaluating" ∉ (evaluate_one c5w_input).2 ∧
    (evaluate_one c5w_input).1
      ∈ (["continue", "schedule_later", "closed"] : List String) :=
  ⟨(C5_amended c5w_input).1, (C5_amended c5w_input).2.1 (by decide)⟩

/-! ## C4 — accepted webhook body shapes -/

/-- C4 counterexample: a body with a flat top-level `messages` array does
carry one message element, yet the handler extracts nothing from it — the
`entry`/`changes` defaults funnel the lookup into an empty object, so the
flat shape is not processed and no inbound Message is stored for it. -/
theorem C4_counterexample :
    pyDictGet c4_flat_body "messages" (.arr [])
      = some (.arr [c4_flat_message]) ∧
    webhook_messages_processed c4_flat_body = [] := by
  exact ⟨rfl, rfl⟩

/-- C4 amended: the handler iterates exactly over
`entry[0].changes[0].value.messages`; additional entries or changes are
ignored, and a flat top-level `messages` array yields no processed
messages. -/
theorem C4_amended (msgs moreEntries moreChanges flatMsgs : List JValue) :
    webhook_messages_processed
      (.obj [("entry", .arr
        (.obj [("changes", .arr
          (.obj [("value", .obj [("messages", .arr msgs)])] :: moreChanges))]
         :: moreEntries))]) = msgs ∧
    webhook_messages_processed (.obj [("messages", .arr flatMsgs)]) = [] := by
  exact ⟨rfl, rfl⟩

/-! ## Webhook delivery lemmas -/

/-- One webhook delivery changes an existing conversation row at most by
setting its `last_msg_at` to the delivery time; identity, contact and status
are untouched. -/
theorem webhook_deliver_pointwise (store : InboundStore)
    (phone mid mtype text : String) (fid now : Nat) (i : Nat)
    (c c' : WaConversationRec)
    (hc : store.conversations[i]? = some c)
    (hc' : (webhook_deliver store phone mid mtype text fid now).conversations[i]?
      = some c') :
    c'.id = c.id ∧ c'.wa_id = c.wa_id ∧ c'.status = c.status ∧
    (c'.last_msg_at = c.last_msg_at ∨ c'.last_msg_at = now) := by
  unfold webhook_deliver at hc'
  cases hfind : webhook_find_conversation store.conversations phone with
  | some conv =>
    rw [hfind] at hc'
    dsimp only at hc'
    rw [List.getElem?_map, hc] at hc'
    injection hc' with hc'
    subst hc'
    by_cases hid : (c.id == conv.id) = true
    · simp [hid]
    · simp [hid]
  | none =>
    rw [hfind] at hc'
    dsimp only at hc'
    have hlt : i < store.conversations.length := (List.getElem?_eq_some.mp hc).1
    rw [List.getElem?_append_left hlt, hc] at hc'
    injection hc' with hc'
    subst hc'
    exact ⟨rfl, rfl, rfl, Or.inl rfl⟩

/-- Each delivery appends exactly one message row carrying the delivered
provider message id. -/
theorem webhook_deliver_count (store : InboundStore)
    (phone mid mtype text : String) (fid now : Nat) :
    count_msg_id (webhook_deliver store phone mid mtype text fid now).messages mid
      = count_msg_id store.messages mid + 1 := by
  unfold webhook_deliver
  cases hfind : webhook_find_conversation store.conversations phone <;>
    simp [hfind, count_msg_id, List.filter_append]

/-! ## C1 — repeated delivery of the same provider message -/

/-- C1 counterexample: delivering the same inbound message (provider id
`wamid.X`) twice leaves two stored Message rows with that id — the webhook
performs no dedup — even though both deliveries landed on the same single
conversation.  The claim requires exactly one row. -/
theorem C1_counterexample :
    count_msg_id c1_store2.messages "wamid.X" = 2 ∧
    c1_store2.conversations.length = 1 := by
  decide

/-- C1 amended: every delivery of an inbound message inserts a fresh Message
row with its provider id (so `k` deliveries leave `k` rows, not one), and an
existing conversation's `last_msg_at` is either untouched or set to the
delivery time — hence non-decreasing when deliveries are processed in
arrival order. -/
theorem C1_amended (store : InboundStore) (phone mid mtype text : String)
    (fid now : Nat) :
    count_msg_id (webhook_deliver store phone mid mtype text fid now).messages mid
      = count_msg_id store.messages mid + 1 ∧
    (∀ (i : Nat) (c c' : WaConversationRec),
      store.conversations[i]? = some c →
      (webhook_deliver store phone mid mtype text fid now).conversations[i]?
        = some c' →
      c'.status = c.status ∧
      (c'.last_msg_at = c.last_msg_at ∨ c'.last_msg_at = now)) := by
  refine ⟨webhook_deliver_count store phone mid mtype text fid now, ?_⟩
  intro i c c' hc hc'
  have h := webhook_deliver_pointwise store phone mid mtype text fid now i c c' hc hc'
  exact ⟨h.2.2.1, h.2.2.2⟩

/-- Witness for C1 amended: a second-row insert and a `last_msg_at` touch on
a concrete one-conversation store. -/
theorem C1_amended_witness :
    count_msg_id (webhook_deliver c1w_store "+92300" "wamid.W" "text" "hello" 9 8).messages
        "wamid.W"
      = count_msg_id c1w_store.messages "wamid.W" + 1 ∧
    ({ c1w_conv with last_msg_at := 8 } : WaConversationRec).status = c1w_conv.status :=
  ⟨(C1_amended c1w_store "+92300" "wamid.W" "text" "hello" 9 8).1,
   ((C1_amended c1w_store "+92300" "wamid.W" "text" "hello" 9 8).2 0 c1w_conv
     { c1w_conv with last_msg_at := 8 } (by decide) (by decide)).1⟩

/-! ## C2 — is CLOSED terminal? -/

/-- C2 counterexample: on a closed conversation, both operator actions
(`send_text` and `start_with_template`), after a successful send, execute
`if not conv.is_open: conv.status = 'open'` and reopen it — CLOSED is not
terminal under the operator actions. -/
theorem C2_counterexample :
    admin_send_text_status "+923001234567" "+923001234567" true
      (.ok "provider-response") "closed" = "open" ∧
    admin_start_with_template_status "+923001234567" "+923001234567" true
      (.ok "provider-response") "closed" = "open" := by
  decide

/-- C2 amended: CLOSED is terminal for the ingress (a delivery never changes
any existing conversation's status; a closed conversation is excluded from
its find-or-reuse query) and for the evaluator (its queryset excludes CLOSED,
so a closed conversation gets no status write); but the operator send-text
and start-with-template actions reopen a closed conversation to OPEN after a
successful send. -/
theorem C2_amended :
    (∀ (store : InboundStore) (phone mid mtype text : String) (fid now i : Nat)
      (c c' : WaConversationRec),
      store.conversations[i]? = some c →
      (webhook_deliver store phone mid mtype text fid now).conversations[i]?
        = some c' →
      c'.status = c.status) ∧
    (∀ input : EvalConvInput, input.status = "closed" →
      evaluate_one input = ("closed", [])) ∧
    (∀ tester wa res : String,
      normalize_msisdn (if wa ≠ "" then wa else tester) ≠ "" →
      admin_send_text_status tester wa true (.ok res) "closed" = "open") ∧
    (∀ tester wa res : String,
      normalize_msisdn (if wa ≠ "" then wa else tester) ≠ "" →
      digits_only tester
        = digits_only (normalize_msisdn (if wa ≠ "" then wa else tester)) →
      admin_start_with_template_status tester wa true (.ok res) "closed"
        = "open") := by
  refine ⟨?_, ?_, ?_, ?_⟩
  · intro store phone mid mtype text fid now i c c' hc hc'
    exact (webhook_deliver_pointwise store phone mid mtype text fid now i c c'
      hc hc').2.2.1
  · intro input hst
    unfold evaluate_one
    rw [hst]
    rfl
  · intro tester wa res hph
    unfold admin_send_text_status
    simp only [ne_eq, ite_not] at hph ⊢
    have hbeq : (normalize_msisdn (if wa = "" then tester else wa) == "") = false := by
      simpa using hph
    simp [hbeq, conv_is_open, active_statuses]
  · intro tester wa res hph hguard
    unfold admin_start_with_template_status
    simp only [ne_eq, ite_not] at hph hguard ⊢
    have hbeq : (normalize_msisdn (if wa = "" then tester else wa) == "") = false := by
      simpa using hph
    simp [hbeq, hguard, conv_is_open, active_statuses]

/-- Witness for C2 amended at concrete inputs: the closed row survives a
webhook delivery and an evaluator pass untouched, and both operator actions
reopen it. -/
theorem C2_amended_witness :
    c2w_conv.status = c2w_conv.status ∧
    evaluate_one c2w_eval_input = ("closed", []) ∧
    admin_send_text_status "+555" "+555" true (.ok "resp") "closed" = "open" ∧
    admin_start_with_template_status "+555" "+555" true (.ok "resp") "closed"
      = "open" :=
  ⟨C2_amended.1 c2w_store "+555" "wamid.C" "text" "t" 9 4 0 c2w_conv c2w_conv
     (by decide) (by decide),
   C2_amended.2.1 c2w_eval_input rfl,
   C2_amended.2.2.1 "+555" "+555" "resp" (by decide),
   C2_amended.2.2.2 "+555" "+555" "resp" (by decide) (by decide)⟩

end WA360
